import Mathlib

/-!
Shallow embedding of `src/lib/inductanceCalculator.ts`: the Maxwell-coefficient
inductance-matrix solver for a three-phase overhead transmission line.

JavaScript `number` values are modelled as real numbers.  The source's
`number[][]` 3×3 matrix literals are modelled as `Matrix (Fin 3) (Fin 3) ℝ`.
The `steps` records of the source carry a label string, a formula string and a
`value`/`explanation` string pair built by interpolating formatted numbers into
fixed text; we keep the label and formula strings verbatim and record the
sequence of interpolated numeric values (the remaining text is constant, so two
step lists are equal iff the corresponding source step lists are).
-/

/-- Input record `LineParameters` of the source (all five fields are JS numbers). -/
structure LineParameters where
  height : ℝ
  phaseSeparation : ℝ
  conductorDiameter : ℝ
  bundleSpacing : ℝ
  numberOfBundles : ℝ

/-- One derivation step: label and formula strings verbatim from the source,
plus the numeric values interpolated into the `value` and `explanation`
strings, in order of appearance. -/
structure CalculationStep where
  label : String
  formula : String
  nums : List ℝ

/-- Output record `CalculationResults` of the source. -/
structure CalculationResults where
  req : ℝ
  maxwellMatrix : Matrix (Fin 3) (Fin 3) ℝ
  inductanceUntransposed : Matrix (Fin 3) (Fin 3) ℝ
  inductanceTransposed : Matrix (Fin 3) (Fin 3) ℝ
  selfInductance : ℝ
  mutualInductanceAvg : ℝ
  steps : List CalculationStep

/-- Source constant `MU_0 = 4 * Math.PI * 1e-7` (unused by the computation). -/
noncomputable def MU_0 : ℝ := 4 * Real.pi * 1e-7

/-- Source constant `MU_R = 1` (unused by the computation). -/
def MU_R : ℝ := 1

/-- Source constant `COEFFICIENT = 0.2` (mH/km scale factor). -/
def COEFFICIENT : ℝ := 0.2

/-- Equivalent radius `req` of the source (step 1): with
`r = (conductorDiameter / 100) / 2` and `B = bundleSpacing / 100`,
the single-conductor branch `r * 0.7788` is taken when `N === 1 || B === 0`,
otherwise the bundle branch `(N * r * B^(N-1))^(1/N)` (real powers, matching
`Math.pow`). -/
noncomputable def req (p : LineParameters) : ℝ :=
  if p.numberOfBundles = 1 ∨ p.bundleSpacing / 100 = 0 then
    p.conductorDiameter / 100 / 2 * 0.7788
  else
    (p.numberOfBundles * (p.conductorDiameter / 100 / 2) *
      (p.bundleSpacing / 100) ^ (p.numberOfBundles - 1)) ^ (1 / p.numberOfBundles)

/-- Self Maxwell coefficient `P11 = Math.log((2 * H) / req)`; the source sets
`P22 = P11` and `P33 = P11`. -/
noncomputable def P11 (p : LineParameters) : ℝ :=
  Real.log (2 * p.height / req p)

/-- Image distance `I12 = Math.sqrt(4 * H * H + S * S)`. -/
noncomputable def I12 (p : LineParameters) : ℝ :=
  Real.sqrt (4 * p.height * p.height + p.phaseSeparation * p.phaseSeparation)

/-- Adjacent mutual Maxwell coefficient `P12 = Math.log(I12 / S)`. -/
noncomputable def P12 (p : LineParameters) : ℝ :=
  Real.log (I12 p / p.phaseSeparation)

/-- Image distance `I13 = Math.sqrt(4 * H * H + 4 * S * S)`. -/
noncomputable def I13 (p : LineParameters) : ℝ :=
  Real.sqrt (4 * p.height * p.height + 4 * p.phaseSeparation * p.phaseSeparation)

/-- Outer mutual Maxwell coefficient `P13 = Math.log(I13 / (2 * S))`. -/
noncomputable def P13 (p : LineParameters) : ℝ :=
  Real.log (I13 p / (2 * p.phaseSeparation))

/-- Maxwell coefficient matrix literal of the source (with `P22 = P33 = P11`):
`[[P11, P12, P13], [P12, P22, P12], [P13, P12, P33]]`. -/
noncomputable def maxwellMatrix (p : LineParameters) : Matrix (Fin 3) (Fin 3) ℝ :=
  !![P11 p, P12 p, P13 p;
     P12 p, P11 p, P12 p;
     P13 p, P12 p, P11 p]

/-- `Ls = P11 * COEFFICIENT`. -/
noncomputable def Ls (p : LineParameters) : ℝ := P11 p * COEFFICIENT

/-- `Lm12 = P12 * COEFFICIENT`. -/
noncomputable def Lm12 (p : LineParameters) : ℝ := P12 p * COEFFICIENT

/-- `Lm13 = P13 * COEFFICIENT`. -/
noncomputable def Lm13 (p : LineParameters) : ℝ := P13 p * COEFFICIENT

/-- `PmAvg = (2 * P12 + P13) / 3`. -/
noncomputable def PmAvg (p : LineParameters) : ℝ := (2 * P12 p + P13 p) / 3

/-- `LmAvg = PmAvg * COEFFICIENT`. -/
noncomputable def LmAvg (p : LineParameters) : ℝ := PmAvg p * COEFFICIENT

/-- The ordered step list pushed by the source: one branch-dependent
equivalent-radius step, then the seven fixed steps. -/
noncomputable def steps (p : LineParameters) : List CalculationStep :=
  (if p.numberOfBundles = 1 ∨ p.bundleSpacing / 100 = 0 then
    [⟨"Equivalent Radius (Single Conductor)", "r_eq = r × 0.7788",
      [req p * 100, req p]⟩]
  else
    [⟨"Equivalent Radius (Bundle)", "r_eq = (N × r × R^(N-1))^(1/N)",
      [req p * 100, req p, p.numberOfBundles, p.bundleSpacing / 100 * 100]⟩]) ++
  [⟨"Self Maxwell Coefficient (P₁₁ = P₂₂ = P₃₃)", "P_ii = ln(2H / r_eq)",
     [P11 p, p.height, req p, 2 * p.height / req p]⟩,
   ⟨"Mutual Maxwell Coefficient (P₁₂ = P₂₃)", "P_12 = ln(√(4H² + S²) / S)",
     [P12 p, p.height, p.phaseSeparation, I12 p, I12 p / p.phaseSeparation]⟩,
   ⟨"Mutual Maxwell Coefficient (P₁₃)", "P_13 = ln(√(4H² + 4S²) / 2S)",
     [P13 p, p.height, p.phaseSeparation, I13 p, 2 * p.phaseSeparation,
      I13 p / (2 * p.phaseSeparation)]⟩,
   ⟨"Self Inductance (L_s)", "L_s = 0.2 × P_ii", [Ls p, P11 p]⟩,
   ⟨"Mutual Inductance (L₁₂ = L₂₃)", "L_12 = 0.2 × P_12", [Lm12 p, P12 p]⟩,
   ⟨"Mutual Inductance (L₁₃)", "L_13 = 0.2 × P_13", [Lm13 p, P13 p]⟩,
   ⟨"Average Mutual Inductance (Transposed)", "L_m = 0.2 × (P₁₂ + P₂₃ + P₁₃) / 3",
     [LmAvg p, P12 p, P12 p, P13 p]⟩]

/-- `calculateInductanceMatrix` of the source: assembles the result record.
`inductanceUntransposed` is the entrywise map `val => val * COEFFICIENT` of the
Maxwell matrix; `inductanceTransposed` is the literal with `Ls` on the diagonal
and `LmAvg` off it.  The function is total: the source performs no input
validation and never throws. -/
noncomputable def calculateInductanceMatrix (p : LineParameters) : CalculationResults where
  req := req p
  maxwellMatrix := maxwellMatrix p
  inductanceUntransposed := (maxwellMatrix p).map (fun val => val * COEFFICIENT)
  inductanceTransposed :=
    !![Ls p, LmAvg p, LmAvg p;
       LmAvg p, Ls p, LmAvg p;
       LmAvg p, LmAvg p, Ls p]
  selfInductance := Ls p
  mutualInductanceAvg := LmAvg p
  steps := steps p

/-- The default parameters of the UI (`defaultParams` in the component). -/
noncomputable def defaultParams : LineParameters :=
  { height := 15, phaseSeparation := 11, conductorDiameter := 3.18,
    bundleSpacing := 45.72, numberOfBundles := 2 }

/-- Default parameters with a single conductor per phase. -/
noncomputable def singleParams : LineParameters :=
  { defaultParams with numberOfBundles := 1 }

/-- Default parameters with `phaseSeparation = 0` (out of physical range). -/
noncomputable def zeroSeparationParams : LineParameters :=
  { defaultParams with phaseSeparation := 0 }

/-! ### Numeric bounding toolkit

Rational two-sided bounds for the square roots and logarithms that the worked
example produces, via partial sums of the exponential series. -/

/-- Lower-bound a square root by a rational whose square is smaller. -/
lemma lt_sqrt_of_sq_lt {a v : ℝ} (ha : 0 ≤ a) (h : a ^ 2 < v) : a < Real.sqrt v := by
  have hs := Real.sqrt_lt_sqrt (by positivity) h
  rwa [Real.sqrt_sq ha] at hs

/-- Upper-bound `Real.exp x` on `[0, 1]` by a truncated series plus its
remainder bound. -/
lemma exp_lt_of_sum_bound (n : ℕ) (hn : 0 < n) {x b : ℝ} (hx0 : 0 ≤ x) (hx1 : x ≤ 1)
    (h : (∑ m ∈ Finset.range n, x ^ m / m.factorial)
        + x ^ n * (n + 1) / (Nat.factorial n * n) < b) :
    Real.exp x < b := by
  have hb := @Real.exp_bound' x hx0 hx1 n hn
  calc Real.exp x ≤ _ := hb
    _ < b := by linarith

/-- Lower-bound `Real.exp x` for `0 ≤ x` by a truncated series. -/
lemma sum_lt_exp (n : ℕ) {x b : ℝ} (hx0 : 0 ≤ x)
    (h : b < ∑ m ∈ Finset.range n, x ^ m / m.factorial) :
    b < Real.exp x :=
  h.trans_le (Real.sum_le_exp_of_nonneg hx0 n)

lemma sqrt001453896_lb : (0.1205776 : ℝ) < Real.sqrt 0.01453896 :=
  lt_sqrt_of_sq_lt (by norm_num) (by norm_num)

lemma sqrt001453896_ub : Real.sqrt 0.01453896 < 0.1205777 := by
  rw [Real.sqrt_lt' (by norm_num : (0:ℝ) < 0.1205777)]
  norm_num

lemma sqrt1021_lb : (31.95 : ℝ) < Real.sqrt 1021 :=
  lt_sqrt_of_sq_lt (by norm_num) (by norm_num)

lemma sqrt1021_ub : Real.sqrt 1021 < 31.955 := by
  rw [Real.sqrt_lt' (by norm_num : (0:ℝ) < 31.955)]
  norm_num

lemma sqrt1384_lb : (37.2 : ℝ) < Real.sqrt 1384 :=
  lt_sqrt_of_sq_lt (by norm_num) (by norm_num)

lemma sqrt1384_ub : Real.sqrt 1384 < 37.205 := by
  rw [Real.sqrt_lt' (by norm_num : (0:ℝ) < 37.205)]
  norm_num

lemma expFive_ub : Real.exp 1 ^ 5 < 148.41316 :=
  calc Real.exp 1 ^ 5 < 2.7182818286 ^ 5 :=
        pow_lt_pow_left₀ Real.exp_one_lt_d9 (Real.exp_pos 1).le (by norm_num)
    _ < 148.41316 := by norm_num

lemma expFive_lb : (148.413155 : ℝ) < Real.exp 1 ^ 5 :=
  calc (148.413155 : ℝ) < 2.7182818283 ^ 5 := by norm_num
    _ < Real.exp 1 ^ 5 := pow_lt_pow_left₀ Real.exp_one_gt_d9 (by norm_num) (by norm_num)

/-- The self coefficient of the worked example exceeds `5.5165`. -/
lemma P11_default_lb : (5.5165 : ℝ) < Real.log (30 / Real.sqrt 0.01453896) := by
  have hs_pos : (0:ℝ) < Real.sqrt 0.01453896 := Real.sqrt_pos.mpr (by norm_num)
  rw [Real.lt_log_iff_exp_lt (by positivity)]
  have hef : Real.exp (0.5165 : ℝ) < 1.676152 :=
    exp_lt_of_sum_bound 7 (by norm_num) (by norm_num) (by norm_num)
      (by simp [Finset.sum_range_succ, Nat.factorial]; norm_num)
  have hexp : Real.exp (5.5165 : ℝ) < 248.8 := by
    have heq : Real.exp (5.5165 : ℝ) = Real.exp 1 ^ 5 * Real.exp 0.5165 := by
      rw [Real.exp_one_pow, ← Real.exp_add]; norm_num
    calc Real.exp (5.5165 : ℝ) = Real.exp 1 ^ 5 * Real.exp 0.5165 := heq
      _ < 148.41316 * 1.676152 :=
          mul_lt_mul'' expFive_ub hef (by positivity) (by positivity)
      _ < 248.8 := by norm_num
  rw [lt_div_iff₀ hs_pos]
  nlinarith [sqrt001453896_ub, Real.exp_pos (5.5165 : ℝ)]

/-- The self coefficient of the worked example is below `5.5175`. -/
lemma P11_default_ub : Real.log (30 / Real.sqrt 0.01453896) < 5.5175 := by
  have hs_pos : (0:ℝ) < Real.sqrt 0.01453896 := Real.sqrt_pos.mpr (by norm_num)
  rw [Real.log_lt_iff_lt_exp (by positivity)]
  have h1 : (30:ℝ) / Real.sqrt 0.01453896 < 248.81 := by
    rw [div_lt_iff₀ hs_pos]
    nlinarith [sqrt001453896_lb]
  have hef : (1.6777 : ℝ) < Real.exp 0.5175 :=
    sum_lt_exp 7 (by norm_num)
      (by simp [Finset.sum_range_succ, Nat.factorial]; norm_num)
  have h2 : (248.81 : ℝ) < Real.exp 5.5175 := by
    have heq : Real.exp (5.5175 : ℝ) = Real.exp 1 ^ 5 * Real.exp 0.5175 := by
      rw [Real.exp_one_pow, ← Real.exp_add]; norm_num
    calc (248.81 : ℝ) < 148.413155 * 1.6777 := by norm_num
      _ < Real.exp 1 ^ 5 * Real.exp 0.5175 :=
          mul_lt_mul'' expFive_lb hef (by norm_num) (by norm_num)
      _ = Real.exp 5.5175 := heq.symm
  linarith

/-- The adjacent mutual coefficient of the worked example exceeds `1.0655`. -/
lemma P12_default_lb : (1.0655 : ℝ) < Real.log (Real.sqrt 1021 / 11) := by
  have hs_pos : (0:ℝ) < Real.sqrt 1021 := Real.sqrt_pos.mpr (by norm_num)
  rw [Real.lt_log_iff_exp_lt (by positivity)]
  have hef : Real.exp (0.0655 : ℝ) < 1.0676931 :=
    exp_lt_of_sum_bound 4 (by norm_num) (by norm_num) (by norm_num)
      (by simp [Finset.sum_range_succ, Nat.factorial]; norm_num)
  have hexp : Real.exp (1.0655 : ℝ) < 2.9045 := by
    have heq : Real.exp (1.0655 : ℝ) = Real.exp 1 * Real.exp 0.0655 := by
      rw [← Real.exp_add]; norm_num
    calc Real.exp (1.0655 : ℝ) = Real.exp 1 * Real.exp 0.0655 := heq
      _ < 2.7182818286 * 1.0676931 :=
          mul_lt_mul'' Real.exp_one_lt_d9 hef (Real.exp_pos 1).le (Real.exp_pos _).le
      _ < 2.9045 := by norm_num
  have hsq : (2.9045 : ℝ) < Real.sqrt 1021 / 11 := by
    rw [lt_div_iff₀ (by norm_num : (0:ℝ) < 11)]
    nlinarith [sqrt1021_lb]
  linarith

/-- The adjacent mutual coefficient of the worked example is below `1.0665`. -/
lemma P12_default_ub : Real.log (Real.sqrt 1021 / 11) < 1.0665 := by
  have hs_pos : (0:ℝ) < Real.sqrt 1021 := Real.sqrt_pos.mpr (by norm_num)
  rw [Real.log_lt_iff_lt_exp (by positivity)]
  have h1 : Real.sqrt 1021 / 11 < 2.905 := by
    rw [div_lt_iff₀ (by norm_num : (0:ℝ) < 11)]
    nlinarith [sqrt1021_ub]
  have hef : (1.0687601 : ℝ) < Real.exp 0.0665 :=
    sum_lt_exp 5 (by norm_num)
      (by simp [Finset.sum_range_succ, Nat.factorial]; norm_num)
  have h2 : (2.905 : ℝ) < Real.exp 1.0665 := by
    have heq : Real.exp (1.0665 : ℝ) = Real.exp 1 * Real.exp 0.0665 := by
      rw [← Real.exp_add]; norm_num
    calc (2.905 : ℝ) < 2.7182818283 * 1.0687601 := by norm_num
      _ < Real.exp 1 * Real.exp 0.0665 :=
          mul_lt_mul'' Real.exp_one_gt_d9 hef (by norm_num) (by norm_num)
      _ = Real.exp 1.0665 := heq.symm
  linarith

/-- The outer mutual coefficient of the worked example exceeds `0.5245`. -/
lemma P13_default_lb : (0.5245 : ℝ) < Real.log (Real.sqrt 1384 / 22) := by
  have hs_pos : (0:ℝ) < Real.sqrt 1384 := Real.sqrt_pos.mpr (by norm_num)
  rw [Real.lt_log_iff_exp_lt (by positivity)]
  have hexp : Real.exp (0.5245 : ℝ) < 1.68962 :=
    exp_lt_of_sum_bound 7 (by norm_num) (by norm_num) (by norm_num)
      (by simp [Finset.sum_range_succ, Nat.factorial]; norm_num)
  have hsq : (1.68962 : ℝ) < Real.sqrt 1384 / 22 := by
    rw [lt_div_iff₀ (by norm_num : (0:ℝ) < 22)]
    nlinarith [sqrt1384_lb]
  linarith

/-- The outer mutual coefficient of the worked example is below `0.5255`. -/
lemma P13_default_ub : Real.log (Real.sqrt 1384 / 22) < 0.5255 := by
  have hs_pos : (0:ℝ) < Real.sqrt 1384 := Real.sqrt_pos.mpr (by norm_num)
  rw [Real.log_lt_iff_lt_exp (by positivity)]
  have h1 : Real.sqrt 1384 / 22 < 1.69114 := by
    rw [div_lt_iff₀ (by norm_num : (0:ℝ) < 22)]
    nlinarith [sqrt1384_ub]
  have h2 : (1.691301 : ℝ) < Real.exp 0.5255 :=
    sum_lt_exp 7 (by norm_num)
      (by simp [Finset.sum_range_succ, Nat.factorial]; norm_num)
  linarith

/-! ### Evaluation of the solver at the default parameters -/

/-- At the defaults, the bundle branch runs and
`req = (2 × 0.0159 × 0.4572)^(1/2) = √0.01453896`. -/
lemma req_default_eq : req defaultParams = Real.sqrt 0.01453896 := by
  rw [req, if_neg]
  · rw [Real.sqrt_eq_rpow]
    norm_num [defaultParams]
  · norm_num [defaultParams]

lemma P11_default_eq : P11 defaultParams = Real.log (30 / Real.sqrt 0.01453896) := by
  rw [P11, req_default_eq]
  norm_num [defaultParams]

lemma P12_default_eq : P12 defaultParams = Real.log (Real.sqrt 1021 / 11) := by
  rw [P12, I12]
  norm_num [defaultParams]

lemma P13_default_eq : P13 defaultParams = Real.log (Real.sqrt 1384 / 22) := by
  rw [P13, I13]
  norm_num [defaultParams]

lemma maxwell_apply_00 (p : LineParameters) :
    (calculateInductanceMatrix p).maxwellMatrix 0 0 = P11 p := by
  simp [calculateInductanceMatrix, maxwellMatrix]

lemma maxwell_apply_01 (p : LineParameters) :
    (calculateInductanceMatrix p).maxwellMatrix 0 1 = P12 p := by
  simp [calculateInductanceMatrix, maxwellMatrix]

lemma maxwell_apply_02 (p : LineParameters) :
    (calculateInductanceMatrix p).maxwellMatrix 0 2 = P13 p := by
  simp [calculateInductanceMatrix, maxwellMatrix]

lemma selfInductance_default_eq :
    (calculateInductanceMatrix defaultParams).selfInductance =
      Real.log (30 / Real.sqrt 0.01453896) * 0.2 := by
  show Ls defaultParams = _
  rw [Ls, COEFFICIENT, P11_default_eq]

lemma mutualInductanceAvg_default_eq :
    (calculateInductanceMatrix defaultParams).mutualInductanceAvg =
      (2 * Real.log (Real.sqrt 1021 / 11) + Real.log (Real.sqrt 1384 / 22)) / 3 * 0.2 := by
  show LmAvg defaultParams = _
  rw [LmAvg, PmAvg, COEFFICIENT, P12_default_eq, P13_default_eq]

/-! ### Claims -/

/-- Claim C1: the spec requires a `NumericDomainError`-style failure for
`phaseSeparation = 0` and forbids returning `Infinity`/`NaN` as a successful
result.  The source performs no domain check at all: the function is total and
at `phaseSeparation = 0` still returns a fully formed `CalculationResults`
record (all 8 derivation steps included).  Its adjacent mutual coefficient is
`Math.log(30 / 0)` — `Infinity` in IEEE arithmetic, and the junk value `0`
under the real-number conventions `x / 0 = 0`, `log 0 = 0` used here — and no
error of any kind is signalled (the caller's `try`/`catch` never fires).  This
theorem evaluates the code at the failing input. -/
theorem zeroSeparation_silent_result :
    (calculateInductanceMatrix zeroSeparationParams).maxwellMatrix 0 1 = 0 ∧
    (calculateInductanceMatrix zeroSeparationParams).steps.length = 8 := by
  constructor
  · simp [calculateInductanceMatrix, maxwellMatrix, P12, I12,
      zeroSeparationParams, defaultParams]
  · simp [calculateInductanceMatrix, steps, zeroSeparationParams, defaultParams]
    norm_num

/-- Claim C2 counterexample: at the default parameters the worked-example
constants `P_12 ≈ 1.067`, `P_13 ≈ 0.526` and `mutualInductanceAvg ≈ 0.178`
are NOT reproduced to three decimal places: each differs from the computed
value by more than `0.0005` (the true values are `P_12 ≈ 1.0664`,
`P_13 ≈ 0.5253`, `mutualInductanceAvg ≈ 0.1772`). -/
theorem worked_example_spec_constants_wrong :
    0.0005 < |(calculateInductanceMatrix defaultParams).maxwellMatrix 0 1 - 1.067| ∧
    0.0005 < |(calculateInductanceMatrix defaultParams).maxwellMatrix 0 2 - 0.526| ∧
    0.0005 < |(calculateInductanceMatrix defaultParams).mutualInductanceAvg - 0.178| := by
  have h01 : (calculateInductanceMatrix defaultParams).maxwellMatrix 0 1 =
      Real.log (Real.sqrt 1021 / 11) := by rw [maxwell_apply_01, P12_default_eq]
  have h02 : (calculateInductanceMatrix defaultParams).maxwellMatrix 0 2 =
      Real.log (Real.sqrt 1384 / 22) := by rw [maxwell_apply_02, P13_default_eq]
  refine ⟨?_, ?_, ?_⟩
  · rw [h01, abs_of_neg (by linarith [P12_default_ub])]
    linarith [P12_default_ub]
  · rw [h02, abs_of_neg (by linarith [P13_default_ub])]
    linarith [P13_default_ub]
  · rw [mutualInductanceAvg_default_eq,
      abs_of_neg (by linarith [P12_default_ub, P13_default_ub])]
    linarith [P12_default_ub, P13_default_ub]

/-- Claim C2 (amended): at the default parameters
(`height = 15`, `phaseSeparation = 11`, `conductorDiameter = 3.18`,
`bundleSpacing = 45.72`, `numberOfBundles = 2`) the solver reproduces, to
three decimal places: `equivalentRadius ≈ 0.1206` m, `P_11 ≈ 5.517`,
`P_12 ≈ 1.066`, `P_13 ≈ 0.525`, `selfInductance ≈ 1.103` mH/km and
`mutualInductanceAvg ≈ 0.177` mH/km (the spec's `1.067`, `0.526`, `0.178`
corrected to the values the code computes). -/
theorem worked_example_three_decimals :
    |(calculateInductanceMatrix defaultParams).req - 0.1206| ≤ 0.0005 ∧
    |(calculateInductanceMatrix defaultParams).maxwellMatrix 0 0 - 5.517| ≤ 0.0005 ∧
    |(calculateInductanceMatrix defaultParams).maxwellMatrix 0 1 - 1.066| ≤ 0.0005 ∧
    |(calculateInductanceMatrix defaultParams).maxwellMatrix 0 2 - 0.525| ≤ 0.0005 ∧
    |(calculateInductanceMatrix defaultParams).selfInductance - 1.103| ≤ 0.0005 ∧
    |(calculateInductanceMatrix defaultParams).mutualInductanceAvg - 0.177| ≤ 0.0005 := by
  have hreq : (calculateInductanceMatrix defaultParams).req = Real.sqrt 0.01453896 :=
    req_default_eq
  have h00 : (calculateInductanceMatrix defaultParams).maxwellMatrix 0 0 =
      Real.log (30 / Real.sqrt 0.01453896) := by rw [maxwell_apply_00, P11_default_eq]
  have h01 : (calculateInductanceMatrix defaultParams).maxwellMatrix 0 1 =
      Real.log (Real.sqrt 1021 / 11) := by rw [maxwell_apply_01, P12_default_eq]
  have h02 : (calculateInductanceMatrix defaultParams).maxwellMatrix 0 2 =
      Real.log (Real.sqrt 1384 / 22) := by rw [maxwell_apply_02, P13_default_eq]
  refine ⟨?_, ?_, ?_, ?_, ?_, ?_⟩
  · rw [hreq, abs_le]
    constructor <;> linarith [sqrt001453896_lb, sqrt001453896_ub]
  · rw [h00, abs_le]
    constructor <;> linarith [P11_default_lb, P11_default_ub]
  · rw [h01, abs_le]
    constructor <;> linarith [P12_default_lb, P12_default_ub]
  · rw [h02, abs_le]
    constructor <;> linarith [P13_default_lb, P13_default_ub]
  · rw [selfInductance_default_eq, abs_le]
    constructor <;> linarith [P11_default_lb, P11_default_ub]
  · rw [mutualInductanceAvg_default_eq, abs_le]
    constructor <;>
      linarith [P12_default_lb, P12_default_ub, P13_default_lb, P13_default_ub]

/-- Claim C3: whenever `numberOfBundles = 1`, the returned equivalent radius
is exactly `(conductorDiameter / 200) × 0.7788` (the single-conductor GMR
approximation `r × e^(-1/4)`). -/
theorem equivalentRadius_single_gmr (p : LineParameters)
    (h : p.numberOfBundles = 1) :
    (calculateInductanceMatrix p).req = p.conductorDiameter / 200 * 0.7788 := by
  show req p = _
  rw [req, if_pos (Or.inl h)]
  ring

/-- Witness for C3 at the default geometry with a single conductor. -/
theorem equivalentRadius_single_gmr_witness :
    (calculateInductanceMatrix singleParams).req =
      singleParams.conductorDiameter / 200 * 0.7788 :=
  equivalentRadius_single_gmr singleParams rfl

/-- Claim C4 counterexample: with `numberOfBundles = 1` and
`conductorDiameter = 3.18` cm, the returned equivalent radius
(`0.0159 × 0.7788 = 0.01238292` m) is NOT the plain conductor radius
(`3.18 / 200 = 0.0159` m). -/
theorem equivalentRadius_single_ne_plain_radius :
    (calculateInductanceMatrix singleParams).req ≠
      singleParams.conductorDiameter / 200 := by
  show req singleParams ≠ _
  rw [req, if_pos (show singleParams.numberOfBundles = 1 ∨
    singleParams.bundleSpacing / 100 = 0 from Or.inl rfl)]
  norm_num [singleParams, defaultParams]

/-- Claim C4 (amended): with `numberOfBundles = 1` the returned equivalent
radius is the plain conductor radius scaled by the GMR factor, i.e.
`0.7788 × (conductorDiameter / 200)`, not the plain radius itself. -/
theorem equivalentRadius_single_scaled (p : LineParameters)
    (h : p.numberOfBundles = 1) :
    (calculateInductanceMatrix p).req = 0.7788 * (p.conductorDiameter / 200) := by
  show req p = _
  rw [req, if_pos (Or.inl h)]
  ring

/-- Witness for the amended C4 at the default geometry with a single conductor. -/
theorem equivalentRadius_single_scaled_witness :
    (calculateInductanceMatrix singleParams).req =
      0.7788 * (singleParams.conductorDiameter / 200) :=
  equivalentRadius_single_scaled singleParams rfl

/-- Claim C5: for `numberOfBundles = N ≥ 2` and `bundleSpacing > 0` the
executed branch computes the general bundle-GMR formula
`(N × r × B^(N-1))^(1/N)` with `r = conductorDiameter / 200` m and
`B = bundleSpacing / 100` m (not the simplified `√(r × B)` display text). -/
theorem equivalentRadius_bundle_formula (p : LineParameters)
    (h2 : 2 ≤ p.numberOfBundles) (hb : 0 < p.bundleSpacing) :
    (calculateInductanceMatrix p).req =
      (p.numberOfBundles * (p.conductorDiameter / 200) *
        (p.bundleSpacing / 100) ^ (p.numberOfBundles - 1)) ^ (1 / p.numberOfBundles) := by
  show req p = _
  rw [req, if_neg]
  · congr 2
    ring
  · rintro (h | h)
    · rw [h] at h2; norm_num at h2
    · rw [div_eq_zero_iff] at h
      rcases h with h | h
      · exact absurd h (ne_of_gt hb)
      · norm_num at h

/-- Witness for C5 at the default parameters (a bundle of two). -/
theorem equivalentRadius_bundle_formula_witness :
    (calculateInductanceMatrix defaultParams).req =
      (defaultParams.numberOfBundles * (defaultParams.conductorDiameter / 200) *
        (defaultParams.bundleSpacing / 100) ^ (defaultParams.numberOfBundles - 1)) ^
        (1 / defaultParams.numberOfBundles) :=
  equivalentRadius_bundle_formula defaultParams (by norm_num [defaultParams])
    (by norm_num [defaultParams])

/-- Claim C6: every entry of `inductanceUntransposed` is exactly `0.2` times
the corresponding entry of `maxwellMatrix` (the relation is exact over the
reals, hence within any floating-point tolerance). -/
theorem inductanceUntransposed_scale_law (p : LineParameters) (i j : Fin 3) :
    (calculateInductanceMatrix p).inductanceUntransposed i j =
      0.2 * (calculateInductanceMatrix p).maxwellMatrix i j := by
  simp [calculateInductanceMatrix, Matrix.map_apply, COEFFICIENT, mul_comm]

/-- Claim C7: `inductanceTransposed` carries `selfInductance` on the diagonal
and `mutualInductanceAvg` everywhere off it, and `mutualInductanceAvg` equals
`0.2 × (2 × P_12 + P_13) / 3` (equal-thirds transposition averaging). -/
theorem inductanceTransposed_structure (p : LineParameters) (i j : Fin 3) :
    ((calculateInductanceMatrix p).inductanceTransposed i j =
      if i = j then (calculateInductanceMatrix p).selfInductance
      else (calculateInductanceMatrix p).mutualInductanceAvg) ∧
    (calculateInductanceMatrix p).mutualInductanceAvg =
      0.2 * (2 * P12 p + P13 p) / 3 := by
  constructor
  · fin_cases i <;> fin_cases j <;>
      simp [calculateInductanceMatrix, Matrix.cons_val_zero, Matrix.cons_val_one,
        Matrix.head_cons, Matrix.vecHead, Matrix.vecTail]
  · show LmAvg p = _
    rw [LmAvg, PmAvg, COEFFICIENT]
    ring

/-- Claim C8: the returned Maxwell coefficient matrix is symmetric. -/
theorem maxwellMatrix_symmetric (p : LineParameters) (i j : Fin 3) :
    (calculateInductanceMatrix p).maxwellMatrix i j =
      (calculateInductanceMatrix p).maxwellMatrix j i := by
  fin_cases i <;> fin_cases j <;>
    simp [calculateInductanceMatrix, maxwellMatrix]

/-- Claim C9: with every other field fixed and a positive equivalent radius,
raising the height from `H1` to `H2 > H1` (with `H1` above `r_eq / 2`)
strictly increases the returned self inductance. -/
theorem selfInductance_strict_mono_in_height (p : LineParameters) (H1 H2 : ℝ)
    (hreq : 0 < req p) (h1 : req p / 2 < H1) (h12 : H1 < H2) :
    (calculateInductanceMatrix { p with height := H1 }).selfInductance <
      (calculateInductanceMatrix { p with height := H2 }).selfInductance := by
  have hr1 : req { p with height := H1 } = req p := rfl
  have hr2 : req { p with height := H2 } = req p := rfl
  show Ls _ < Ls _
  rw [Ls, Ls, P11, P11, hr1, hr2]
  have hH1 : 0 < H1 := by linarith
  have harg : 2 * H1 / req p < 2 * H2 / req p := by gcongr
  have hpos : 0 < 2 * H1 / req p := by positivity
  have hlog := Real.log_lt_log hpos harg
  have hC : (0:ℝ) < COEFFICIENT := by norm_num [COEFFICIENT]
  exact mul_lt_mul_of_pos_right hlog hC

/-- Witness for C9: at the default geometry, raising the height from 15 m to
16 m strictly increases the self inductance. -/
theorem selfInductance_strict_mono_in_height_witness :
    (calculateInductanceMatrix { defaultParams with height := 15 }).selfInductance <
      (calculateInductanceMatrix { defaultParams with height := 16 }).selfInductance := by
  apply selfInductance_strict_mono_in_height
  · rw [req_default_eq]
    exact Real.sqrt_pos.mpr (by norm_num)
  · rw [req_default_eq]
    linarith [sqrt001453896_ub]
  · norm_num

/-- Claim C10: when `numberOfBundles = 1` the single-conductor branch runs and
`bundleSpacing` influences nothing: changing it leaves the entire result
record — every numeric field, both matrices and all steps — unchanged. -/
theorem bundleSpacing_irrelevant_single (p : LineParameters) (b : ℝ)
    (h : p.numberOfBundles = 1) :
    calculateInductanceMatrix { p with bundleSpacing := b } =
      calculateInductanceMatrix p := by
  simp [calculateInductanceMatrix, maxwellMatrix, steps, P11, P12, P13, I12, I13,
    Ls, Lm12, Lm13, PmAvg, LmAvg, req, h]

/-- Witness for C10: with a single conductor, bundle spacings 99 cm and
45.72 cm give identical results. -/
theorem bundleSpacing_irrelevant_single_witness :
    calculateInductanceMatrix { singleParams with bundleSpacing := 99 } =
      calculateInductanceMatrix singleParams :=
  bundleSpacing_irrelevant_single singleParams 99 rfl
